import Mathlib

/-!
Verification development for the AR Piano Teaching Machine (`src/piano.py`).

The file shallowly embeds the stateful core of the program:

* the touch-lift edge detector of `ARPiano.update_camera` (lines 667-675),
* the note trigger / scoring path `ARPiano.trigger_note_by_name` (560-586)
  together with `ARPiano.addScore`,
* the falling-tile dynamics `FallingTile.update_position` (136-156),
* tile spawning `TileOverlay.spawnTile` (176-194), and
* the melody scheduling loop of `ARPiano.spawnHappyBirthdayTiles` /
  `ARPiano.spawnInterstellarTiles` (694-722).

Python dictionaries keyed by note name are embedded as association lists
with unique keys; wall-clock timestamps (`int(time.time() * 1000)`) are
explicit `Int` parameters of each step.  Rendering, audio playback and the
Qt plumbing carry no state the scoring core reads, so they are omitted;
where a branch only performs such an external effect the embedding records
the branch taken (e.g. the `Bool` result of `FallingTile.update_position`
marks the tile-origin call of `trigger_note_by_name`).
-/

namespace ARPiano

/-- Lookup in a Python-style dict embedded as an association list:
`d.get(k, None)`. -/
def dictGet : List (String × Int) → String → Option Int
  | [], _ => none
  | (k', v) :: rest, k => if k' = k then some v else dictGet rest k

/-- Python dict assignment `d[k] = v`: overwrite the existing binding if
present, otherwise append. -/
def dictSet : List (String × Int) → String → Int → List (String × Int)
  | [], k, v => [(k, v)]
  | (k', v') :: rest, k, v =>
      if k' = k then (k, v) :: rest else (k', v') :: dictSet rest k v

/-- Python dict deletion `del d[k]`. -/
def dictDel : List (String × Int) → String → List (String × Int)
  | [], _ => []
  | (k', v) :: rest, k =>
      if k' = k then dictDel rest k else (k', v) :: dictDel rest k

/-- The mutable state of `ARPiano` that the scoring core reads and writes:
the "Teach You To Play" flag `auto_play_muted`, the score, and the
`last_tile_collision_time_for_note` dict (note name to collision time in
ms). -/
structure PianoState where
  auto_play_muted : Bool
  score : Nat
  last_tile_collision_time_for_note : List (String × Int)
deriving DecidableEq

/-- `self.tile_score_window_ms = 300` (piano.py line 314). -/
def tile_score_window_ms : Int := 300

/-- `ARPiano.addScore` (lines 588-593): add points to the score (the label
update is display only). -/
def addScore (s : PianoState) (points : Nat) : PianoState :=
  { s with score := s.score + points }

/-- `ARPiano.trigger_note_by_name` (lines 560-586), state part.
`from_tile = true` marks a tile-origin call.  The early return silences
tiles while `auto_play_muted`; the scoring block runs only for user-origin
calls while `auto_play_muted`; sound playback and the flying-note effect do
not touch this state. -/
def trigger_note_by_name (s : PianoState) (note_name : String)
    (from_tile : Bool) (current_ms : Int) : PianoState :=
  if from_tile && s.auto_play_muted then s
  else if !from_tile && s.auto_play_muted then
    match dictGet s.last_tile_collision_time_for_note note_name with
    | none => s
    | some collision_time =>
        let s' :=
          if current_ms - collision_time ≤ tile_score_window_ms then
            addScore s 10
          else s
        { s' with
          last_tile_collision_time_for_note :=
            dictDel s'.last_tile_collision_time_for_note note_name }
  else s

/-- One key's slice of the touch-lift loop in `ARPiano.update_camera`
(lines 667-675): given the held flag `is_held[nm]` and whether the key is
in `touched_now`, return the new held flag and whether
`trigger_note_by_name` was called this frame. -/
def touchLiftKeyStep (held : Bool) (touched : Bool) : Bool × Bool :=
  if touched then
    if !held then (true, true) else (held, false)
  else
    if held then (false, false) else (held, false)

/-- Run the touch-lift step of one key over a sequence of per-frame
touched states, returning the per-frame event (note-on emitted) sequence. -/
def touchLiftRun : Bool → List Bool → List Bool
  | _, [] => []
  | held, t :: ts =>
      match touchLiftKeyStep held t with
      | (h', e) => e :: touchLiftRun h' ts

/-- An axis-aligned key rectangle (a `QRect`): position of the top-left
corner plus width and height, in integer pixels. -/
structure Rect where
  x : Int
  y : Int
  w : Int
  h : Int
deriving DecidableEq

/-- The state of one `FallingTile` (lines 95-156): the target note, the
key rectangle's top edge `key_rect.y()`, the current vertical position,
the tile's side length (its height), the horizontal position, the fall
speed, and the `is_finished` flag. -/
structure FallingTile where
  note_name : String
  key_top : Int
  y : Int
  height : Int
  x : Int
  fall_speed : Int
  is_finished : Bool
deriving DecidableEq

/-- `FallingTile.__init__` (lines 102-124): the tile side is
`int(key_rect.width() * 0.7)`, the start position is
`key_rect.x() + x_offset + (key_rect.width() - tile_side) // 2` and
`-tile_side`, and the tile starts unfinished. -/
def mkFallingTile (note_name : String) (key_rect : Rect)
    (fall_speed : Int) (x_offset : Int) : FallingTile :=
  let tile_side := 7 * key_rect.w / 10
  { note_name := note_name
    key_top := key_rect.y
    y := -tile_side
    height := tile_side
    x := key_rect.x + x_offset + (key_rect.w - tile_side) / 2
    fall_speed := fall_speed
    is_finished := false }

/-- `FallingTile.update_position` (lines 136-156): a finished tile does
nothing; otherwise the tile advances by `fall_speed`, and the first frame
its bottom edge reaches or passes the key's top edge it finishes — either
calling `trigger_note_by_name` with `from_tile=True` (auto-play on) or
recording the collision time (auto-play muted).  The `Bool` result marks
the tile-origin trigger call. -/
def FallingTile.update_position (t : FallingTile) (p : PianoState)
    (current_ms : Int) : FallingTile × PianoState × Bool :=
  if t.is_finished then (t, p, false)
  else
    let ny := t.y + t.fall_speed
    let tile_bottom := ny + t.height
    if t.key_top ≤ tile_bottom then
      if !p.auto_play_muted then
        ({ t with y := ny, is_finished := true },
         trigger_note_by_name p t.note_name true current_ms, true)
      else
        ({ t with y := ny, is_finished := true },
         { p with
           last_tile_collision_time_for_note :=
             dictSet p.last_tile_collision_time_for_note t.note_name
               current_ms },
         false)
    else ({ t with y := ny }, p, false)

/-- Iterate `FallingTile.update_position` over successive frames, tile and
piano state threaded together; `times n` is the wall-clock millisecond
timestamp of frame `n`. -/
def updateIter (t : FallingTile) (p : PianoState) (times : Nat → Int) :
    Nat → FallingTile × PianoState
  | 0 => (t, p)
  | n + 1 =>
      let prev := updateIter t p times n
      let step := FallingTile.update_position prev.1 prev.2 (times n)
      (step.1, step.2.1)

/-- The key-geometry lookup loop of `TileOverlay.spawnTile`
(lines 185-189): first entry of `keys_info` whose note name matches. -/
def findKeyRect : List (String × Rect) → String → Option Rect
  | [], _ => none
  | (nm, r) :: rest, note_name =>
      if nm = note_name then some r else findKeyRect rest note_name

/-- `sum(1 for t in self.tiles if t.note_name == note_name and not
t.is_finished)` (line 181). -/
def activeTileCount (tiles : List FallingTile) (note_name : String) : Nat :=
  tiles.countP (fun t => t.note_name == note_name && !t.is_finished)

/-- `TileOverlay.spawnTile` (lines 176-194): offset the new tile by 20 px
per active tile of the same note, look up the key rectangle, silently do
nothing when the note matches no key, otherwise append the new tile. -/
def spawnTile (tiles : List FallingTile) (keys_info : List (String × Rect))
    (note_name : String) (fall_speed : Int) : List FallingTile :=
  let x_offset : Int := (activeTileCount tiles note_name : Int) * 20
  match findKeyRect keys_info note_name with
  | none => tiles
  | some key_rect =>
      tiles ++ [mkFallingTile note_name key_rect fall_speed x_offset]

/-- The scheduling loop of `ARPiano.spawnHappyBirthdayTiles` /
`ARPiano.spawnInterstellarTiles` (lines 694-722): `current_time` starts at
`0` and each entry is scheduled `delta` after the previous one
(`current_time += delta; QTimer.singleShot(current_time, ...)`).  Returns
each note with its onset delay relative to scheduling start. -/
def scheduleMelodyAux : Int → List (String × Int) → List (String × Int)
  | _, [] => []
  | current_time, (note_name, delta) :: rest =>
      (note_name, current_time + delta) ::
        scheduleMelodyAux (current_time + delta) rest

/-- Onset times for a whole melody, relative to scheduling start. -/
def scheduleTileSpawns (melody : List (String × Int)) :
    List (String × Int) :=
  scheduleMelodyAux 0 melody

/-- Absolute spawn times when the scheduling loop runs at wall-clock time
`T`: `QTimer.singleShot` delays are relative to the moment of the call. -/
def spawnTimesAt (T : Int) (melody : List (String × Int)) :
    List (String × Int) :=
  (scheduleTileSpawns melody).map (fun p => (p.1, T + p.2))

/-- The 'Happy Birthday' melody (lines 699-704). -/
def happyBirthdayMelody : List (String × Int) :=
  [("g4", 0), ("g4", 800), ("a4", 800), ("g4", 800), ("c5", 800),
   ("b4", 1000), ("g4", 800), ("g4", 800), ("a4", 800), ("g4", 800),
   ("d5", 800), ("c5", 1000), ("g4", 800), ("g4", 800), ("g5", 800),
   ("e5", 800), ("c5", 800), ("b4", 800), ("a4", 1200), ("f5", 800),
   ("f5", 800), ("e5", 800), ("c5", 800), ("d5", 800), ("c5", 1000)]

/-- The 'Interstellar' melody (lines 714-718). -/
def interstellarMelody : List (String × Int) :=
  [("c4", 0), ("g4", 800), ("g4", 800), ("a4", 1000), ("g4", 800),
   ("f4", 800), ("e4", 1200), ("e4", 800), ("g4", 800), ("g4", 1000)]

/-! ### Touch-lift detector lemmas -/

lemma touchLiftKeyStep_eq (held touched : Bool) :
    touchLiftKeyStep held touched = (touched, touched && !held) := by
  cases held <;> cases touched <;> rfl

lemma touchLiftRun_cons (held t : Bool) (ts : List Bool) :
    touchLiftRun held (t :: ts) = (t && !held) :: touchLiftRun t ts := by
  cases held <;> cases t <;> rfl

lemma touchLiftRun_length (held : Bool) (ts : List Bool) :
    (touchLiftRun held ts).length = ts.length := by
  induction ts generalizing held with
  | nil => rfl
  | cons t ts ih => rw [touchLiftRun_cons, List.length_cons, ih]; rfl

lemma touchLiftRun_getD (held : Bool) (ts : List Bool) (i : Nat) :
    ((touchLiftRun held ts).getD i false = true ↔
      (ts.getD i false = true ∧
        (if i = 0 then held = false else ts.getD (i - 1) false = false))) := by
  induction ts generalizing held i with
  | nil => simp [touchLiftRun]
  | cons t ts ih =>
    rw [touchLiftRun_cons]
    cases i with
    | zero => cases held <;> cases t <;> simp
    | succ n =>
      simp only [List.getD_cons_succ, Nat.succ_ne_zero, if_false,
        Nat.succ_sub_one]
      rw [ih t n]
      cases n with
      | zero => simp
      | succ m => simp

/-- C1: for every per-frame sequence `ts` of touched/untouched states of
one key (initial held flag `false`, as set in `ARPiano.__init__`), the
touch-lift loop emits a note-on event at frame `i` exactly when frame `i`
is the first frame of a maximal contiguous touched run — i.e. the key is
touched at frame `i` and either `i = 0` or it was untouched at frame
`i - 1`.  In particular each maximal touched run yields exactly one event,
at its first frame, and a touched-to-untouched transition (an untouched
frame) never emits an event.  The event sequence has one entry per frame. -/
theorem touch_lift_edge_triggered (ts : List Bool) (i : Nat) :
    (touchLiftRun false ts).length = ts.length ∧
      ((touchLiftRun false ts).getD i false = true ↔
        (ts.getD i false = true ∧
          (i = 0 ∨ ts.getD (i - 1) false = false))) := by
  refine ⟨touchLiftRun_length false ts, ?_⟩
  rw [touchLiftRun_getD]
  cases i with
  | zero => simp
  | succ n => simp

/-! ### Scoring-path lemmas -/

lemma dictGet_dictDel (d : List (String × Int)) (k : String) :
    dictGet (dictDel d k) k = none := by
  induction d with
  | nil => rfl
  | cons p rest ih =>
    rcases p with ⟨k', v⟩
    by_cases h : k' = k
    · simp [dictDel, h, ih]
    · simp [dictDel, dictGet, h, ih]

lemma dictGet_dictSet (d : List (String × Int)) (k : String) (v : Int) :
    dictGet (dictSet d k v) k = some v := by
  induction d with
  | nil => simp [dictSet, dictGet]
  | cons p rest ih =>
    rcases p with ⟨k', v'⟩
    by_cases h : k' = k
    · simp [dictSet, h, dictGet]
    · simp [dictSet, dictGet, h, ih]

/-- Canonical form of a user-origin trigger in teach mode with a pending
collision record: the score is bumped by 10 exactly when the 300 ms window
matches, the record for the note is deleted, and the mode flag is kept. -/
lemma trigger_user_muted_some (s : PianoState) (note_name : String)
    (r current_ms : Int) (hm : s.auto_play_muted = true)
    (hr : dictGet s.last_tile_collision_time_for_note note_name = some r) :
    trigger_note_by_name s note_name false current_ms =
      { auto_play_muted := s.auto_play_muted
        score :=
          if current_ms - r ≤ tile_score_window_ms then s.score + 10
          else s.score
        last_tile_collision_time_for_note :=
          dictDel s.last_tile_collision_time_for_note note_name } := by
  unfold trigger_note_by_name
  rw [hm, hr]
  by_cases hw : current_ms - r ≤ tile_score_window_ms
  · simp [hw, addScore, hm]
  · simp [hw, hm]

/-- A user-origin trigger in teach mode with no pending collision record
leaves the state unchanged. -/
lemma trigger_user_muted_none (s : PianoState) (note_name : String)
    (current_ms : Int) (hm : s.auto_play_muted = true)
    (hr : dictGet s.last_tile_collision_time_for_note note_name = none) :
    trigger_note_by_name s note_name false current_ms = s := by
  unfold trigger_note_by_name
  rw [hm, hr]
  simp

/-- C2: in teach mode (`auto_play_muted = true`, i.e. auto-play for tiles
disabled), a user-origin trigger of a note with a pending collision record
at timestamp `r` awards exactly 10 points when `now - r ≤ 300` ms — in
particular at `now = r + 300` — and awards nothing at `now - r = 301` ms;
the window constant is 300 ms. -/
theorem score_window_boundary (s : PianoState) (note_name : String)
    (r now : Int) (hm : s.auto_play_muted = true)
    (hr : dictGet s.last_tile_collision_time_for_note note_name = some r) :
    tile_score_window_ms = 300 ∧
      (now - r ≤ 300 →
        (trigger_note_by_name s note_name false now).score = s.score + 10) ∧
      (now - r = 301 →
        (trigger_note_by_name s note_name false now).score = s.score) := by
  rw [trigger_user_muted_some s note_name r now hm hr]
  refine ⟨rfl, ?_, ?_⟩
  · intro h
    have : now - r ≤ tile_score_window_ms := by
      unfold tile_score_window_ms; omega
    simp [this]
  · intro h
    have : ¬now - r ≤ tile_score_window_ms := by
      unfold tile_score_window_ms; omega
    simp [this]

/-- Witness for C2 at a concrete state: record at 1000 ms, a hit at
1300 ms (the boundary) scores 10, a hit at 1301 ms scores nothing. -/
theorem score_window_boundary_witness :
    (⟨true, 0, [("c4", 1000)]⟩ : PianoState).auto_play_muted = true ∧
      dictGet (⟨true, 0, [("c4", 1000)]⟩ :
        PianoState).last_tile_collision_time_for_note "c4" = some 1000 ∧
      (trigger_note_by_name ⟨true, 0, [("c4", 1000)]⟩ "c4" false 1300).score
        = 0 + 10 ∧
      (trigger_note_by_name ⟨true, 0, [("c4", 1000)]⟩ "c4" false 1301).score
        = 0 :=
  ⟨rfl, by decide,
    (score_window_boundary ⟨true, 0, [("c4", 1000)]⟩ "c4" 1000 1300 rfl
      (by decide)).2.1 (by decide),
    (score_window_boundary ⟨true, 0, [("c4", 1000)]⟩ "c4" 1000 1301 rfl
      (by decide)).2.2 (by decide)⟩

/-- C3: in teach mode, a user-origin trigger that finds a pending
collision record deletes it whether or not the 300 ms window matched; a
second user trigger of the same note then finds no record and leaves the
state (hence the score) unchanged, so one collision awards at most once;
and a late hit (elapsed time beyond the window) scores nothing while still
consuming the record. -/
theorem collision_record_single_use (s : PianoState) (note_name : String)
    (r now₁ now₂ : Int) (hm : s.auto_play_muted = true)
    (hr : dictGet s.last_tile_collision_time_for_note note_name = some r) :
    dictGet (trigger_note_by_name s note_name false
        now₁).last_tile_collision_time_for_note note_name = none ∧
      trigger_note_by_name (trigger_note_by_name s note_name false now₁)
          note_name false now₂ =
        trigger_note_by_name s note_name false now₁ ∧
      (tile_score_window_ms < now₁ - r →
        (trigger_note_by_name s note_name false now₁).score = s.score) := by
  rw [trigger_user_muted_some s note_name r now₁ hm hr]
  refine ⟨dictGet_dictDel _ _, ?_, ?_⟩
  · exact trigger_user_muted_none _ _ _ hm (dictGet_dictDel _ _)
  · intro h
    have : ¬now₁ - r ≤ tile_score_window_ms := by omega
    simp [this]

/-- Witness for C3: after the collision record at 1000 ms is consumed by a
late hit at 1400 ms, the record is gone, a second trigger at 1450 ms is a
no-op, and the late hit scored nothing. -/
theorem collision_record_single_use_witness :
    (⟨true, 0, [("g4", 1000)]⟩ : PianoState).auto_play_muted = true ∧
      dictGet (⟨true, 0, [("g4", 1000)]⟩ :
        PianoState).last_tile_collision_time_for_note "g4" = some 1000 ∧
      dictGet (trigger_note_by_name ⟨true, 0, [("g4", 1000)]⟩ "g4" false
        1400).last_tile_collision_time_for_note "g4" = none ∧
      trigger_note_by_name
          (trigger_note_by_name ⟨true, 0, [("g4", 1000)]⟩ "g4" false 1400)
          "g4" false 1450 =
        trigger_note_by_name ⟨true, 0, [("g4", 1000)]⟩ "g4" false 1400 ∧
      (trigger_note_by_name ⟨true, 0, [("g4", 1000)]⟩ "g4" false 1400).score
        = 0 :=
  ⟨rfl, by decide,
    (collision_record_single_use ⟨true, 0, [("g4", 1000)]⟩ "g4" 1000 1400
      1450 rfl (by decide)).1,
    (collision_record_single_use ⟨true, 0, [("g4", 1000)]⟩ "g4" 1000 1400
      1450 rfl (by decide)).2.1,
    (collision_record_single_use ⟨true, 0, [("g4", 1000)]⟩ "g4" 1000 1400
      1450 rfl (by decide)).2.2 (by decide)⟩

/-- C4 counterexample: with `auto_play_muted = false` (i.e. the spec's
`auto_play_enabled = true`: tiles directly trigger sound) and a pending
collision record for "c4" at time 0, a user-origin trigger at time 0 —
squarely inside any scoring window — leaves the whole state unchanged: the
score stays 0 and the record is not consumed.  Since a Score Engine query
always consumes a present record (and here would also award), no query
happens, refuting the claim that a user-origin trigger queries the Score
Engine while `auto_play_enabled = true`. -/
theorem user_trigger_query_counterexample :
    (⟨false, 0, [("c4", 0)]⟩ : PianoState).auto_play_muted = false ∧
      dictGet (⟨false, 0, [("c4", 0)]⟩ :
        PianoState).last_tile_collision_time_for_note "c4" = some 0 ∧
      trigger_note_by_name ⟨false, 0, [("c4", 0)]⟩ "c4" false 0 =
        ⟨false, 0, [("c4", 0)]⟩ := by
  refine ⟨rfl, by decide, by decide⟩

/-- C4 (amended): whenever the Note Trigger Service receives a user-origin
trigger while `auto_play_enabled = false` (code: `auto_play_muted = true`,
teach mode on), it queries the Score Engine with the note name and the
current timestamp: a pending collision record for the note is consumed,
and the score grows by 10 exactly when `now - record_time ≤ 300` ms. -/
theorem teach_mode_user_trigger_queries_scoring (s : PianoState)
    (note_name : String) (r now : Int) (hm : s.auto_play_muted = true)
    (hr : dictGet s.last_tile_collision_time_for_note note_name = some r) :
    dictGet (trigger_note_by_name s note_name false
        now).last_tile_collision_time_for_note note_name = none ∧
      (trigger_note_by_name s note_name false now).score =
        (if now - r ≤ tile_score_window_ms then s.score + 10
         else s.score) := by
  rw [trigger_user_muted_some s note_name r now hm hr]
  exact ⟨dictGet_dictDel _ _, rfl⟩

/-- Witness for the amended C4: in teach mode a user trigger at 1100 ms
against a record at 1000 ms consumes the record and awards 10. -/
theorem teach_mode_user_trigger_queries_scoring_witness :
    (⟨true, 5, [("d4", 1000)]⟩ : PianoState).auto_play_muted = true ∧
      dictGet (⟨true, 5, [("d4", 1000)]⟩ :
        PianoState).last_tile_collision_time_for_note "d4" = some 1000 ∧
      dictGet (trigger_note_by_name ⟨true, 5, [("d4", 1000)]⟩ "d4" false
        1100).last_tile_collision_time_for_note "d4" = none ∧
      (trigger_note_by_name ⟨true, 5, [("d4", 1000)]⟩ "d4" false 1100).score
        = (if (1100 : Int) - 1000 ≤ tile_score_window_ms then 5 + 10
           else 5) :=
  ⟨rfl, by decide,
    (teach_mode_user_trigger_queries_scoring ⟨true, 5, [("d4", 1000)]⟩ "d4"
      1000 1100 rfl (by decide)).1,
    (teach_mode_user_trigger_queries_scoring ⟨true, 5, [("d4", 1000)]⟩ "d4"
      1000 1100 rfl (by decide)).2⟩

/-- C5: while `auto_play_enabled = true` (code: `auto_play_muted = false`,
tiles sound themselves), a user-origin trigger never enters the scoring
path: the resulting state equals the input state, so the score is
unchanged and no collision record is consumed. -/
theorem auto_play_on_skips_scoring (s : PianoState) (note_name : String)
    (now : Int) (hm : s.auto_play_muted = false) :
    trigger_note_by_name s note_name false now = s := by
  unfold trigger_note_by_name
  rw [hm]
  simp

/-- Witness for C5: a user trigger with a within-window record pending but
auto-play on leaves the state untouched. -/
theorem auto_play_on_skips_scoring_witness :
    (⟨false, 7, [("e4", 2000)]⟩ : PianoState).auto_play_muted = false ∧
      trigger_note_by_name ⟨false, 7, [("e4", 2000)]⟩ "e4" false 2100 =
        ⟨false, 7, [("e4", 2000)]⟩ :=
  ⟨rfl, auto_play_on_skips_scoring ⟨false, 7, [("e4", 2000)]⟩ "e4" 2100 rfl⟩

/-- C10: the scoring window check `current_ms - collision_time ≤ 300` has
no lower bound: in teach mode a user-origin trigger whose timestamp `now`
is earlier than the recorded collision time `r` (negative elapsed time)
still awards the 10 points. -/
theorem score_window_no_lower_bound (s : PianoState) (note_name : String)
    (r now : Int) (hm : s.auto_play_muted = true)
    (hr : dictGet s.last_tile_collision_time_for_note note_name = some r)
    (hlt : now < r) :
    (trigger_note_by_name s note_name false now).score = s.score + 10 := by
  rw [trigger_user_muted_some s note_name r now hm hr]
  have : now - r ≤ tile_score_window_ms := by
    unfold tile_score_window_ms; omega
  simp [this]

/-- Witness for C10: a trigger at 500 ms against a record at 1000 ms —
half a second before the collision — still scores 10. -/
theorem score_window_no_lower_bound_witness :
    (⟨true, 0, [("a4", 1000)]⟩ : PianoState).auto_play_muted = true ∧
      dictGet (⟨true, 0, [("a4", 1000)]⟩ :
        PianoState).last_tile_collision_time_for_note "a4" = some 1000 ∧
      (500 : Int) < 1000 ∧
      (trigger_note_by_name ⟨true, 0, [("a4", 1000)]⟩ "a4" false 500).score
        = 0 + 10 :=
  ⟨rfl, by decide, by decide,
    score_window_no_lower_bound ⟨true, 0, [("a4", 1000)]⟩ "a4" 1000 500 rfl
      (by decide) (by decide)⟩

/-- C6: a per-frame update of an unfinished tile advances its vertical
position by exactly its fall speed; the tile becomes finished exactly on
the first frame its bottom edge (`y + fall_speed + height` after moving)
reaches or passes the key's top edge; finished tiles never change again
(one-way transition); and on the finishing transition, if auto-play is
enabled (`auto_play_muted = false`) the note is triggered with tile origin
(`from_tile = true`), otherwise the collision record for the note is set
to the current time, overwriting any prior record so that looking the note
up yields exactly the new timestamp. -/
theorem tile_collision_transition (t : FallingTile) (p : PianoState)
    (ms : Int) (h : t.is_finished = false) :
    (t.update_position p ms).1.y = t.y + t.fall_speed ∧
      ((t.update_position p ms).1.is_finished = true ↔
        t.key_top ≤ t.y + t.fall_speed + t.height) ∧
      (∀ (t' : FallingTile) (p' : PianoState) (ms' : Int),
        t'.is_finished = true →
          FallingTile.update_position t' p' ms' = (t', p', false)) ∧
      (t.key_top ≤ t.y + t.fall_speed + t.height →
        (p.auto_play_muted = false →
          (t.update_position p ms).2.2 = true ∧
            (t.update_position p ms).2.1 =
              trigger_note_by_name p t.note_name true ms) ∧
        (p.auto_play_muted = true →
          (t.update_position p ms).2.2 = false ∧
            dictGet
              ((t.update_position p
                ms).2.1).last_tile_collision_time_for_note t.note_name =
              some ms)) := by
  refine ⟨?_, ?_, ?_, ?_⟩
  · unfold FallingTile.update_position
    simp only [h]
    by_cases hc : t.key_top ≤ t.y + t.fall_speed + t.height
    · by_cases hm : p.auto_play_muted <;> simp [hc, hm]
    · simp [hc]
  · unfold FallingTile.update_position
    simp only [h]
    by_cases hc : t.key_top ≤ t.y + t.fall_speed + t.height
    · by_cases hm : p.auto_play_muted <;> simp [hc, hm]
    · simp [hc, h]
  · intro t' p' ms' hf
    unfold FallingTile.update_position
    simp [hf]
  · intro hc
    constructor
    · intro hm
      unfold FallingTile.update_position
      simp [h, hc, hm]
    · intro hm
      unfold FallingTile.update_position
      simp [h, hc, hm, dictGet_dictSet]

/-- Witness for C6: a tile 2 px above collision with fall speed 4 finishes
on this frame; with auto-play muted it records the frame's timestamp. -/
theorem tile_collision_transition_witness :
    (⟨"c4", 100, 90, 8, 0, 4, false⟩ : FallingTile).is_finished = false ∧
      (100 : Int) ≤ 90 + 4 + 8 ∧
      (⟨true, 0, []⟩ : PianoState).auto_play_muted = true ∧
      ((FallingTile.update_position ⟨"c4", 100, 90, 8, 0, 4, false⟩
          ⟨true, 0, []⟩ 5000).1.y = 90 + 4 ∧
        dictGet ((FallingTile.update_position ⟨"c4", 100, 90, 8, 0, 4, false⟩
            ⟨true, 0, []⟩
            5000).2.1).last_tile_collision_time_for_note "c4" = some 5000) :=
  ⟨rfl, by decide, rfl,
    (tile_collision_transition ⟨"c4", 100, 90, 8, 0, 4, false⟩ ⟨true, 0, []⟩
      5000 rfl).1,
    (((tile_collision_transition ⟨"c4", 100, 90, 8, 0, 4, false⟩
        ⟨true, 0, []⟩ 5000 rfl).2.2.2 (by decide)).2 rfl).2⟩

/-- C9: spawning a tile for a note name that matches no key of the layout
is a silent no-op: the active tile list is returned unchanged and no tile
is created. -/
theorem spawn_unknown_note_noop (tiles : List FallingTile)
    (keys_info : List (String × Rect)) (note_name : String)
    (fall_speed : Int) (hk : findKeyRect keys_info note_name = none) :
    spawnTile tiles keys_info note_name fall_speed = tiles := by
  unfold spawnTile
  rw [hk]

/-- Witness for C9: spawning "z9", which matches no key, leaves the tile
list empty. -/
theorem spawn_unknown_note_noop_witness :
    findKeyRect [("c4", ⟨0, 100, 50, 60⟩)] "z9" = none ∧
      spawnTile [] [("c4", ⟨0, 100, 50, 60⟩)] "z9" 4 = [] :=
  ⟨by decide,
    spawn_unknown_note_noop [] [("c4", ⟨0, 100, 50, 60⟩)] "z9" 4 (by decide)⟩

/-! ### Horizontal offset irrelevance for collisions -/

lemma update_position_x_irrelevant (t : FallingTile) (xv : Int)
    (p : PianoState) (ms : Int) :
    FallingTile.update_position { t with x := xv } p ms =
      ({ (FallingTile.update_position t p ms).1 with x := xv },
       (FallingTile.update_position t p ms).2.1,
       (FallingTile.update_position t p ms).2.2) := by
  rcases t with ⟨nm, kt, ty, th, tx, fs, fin⟩
  unfold FallingTile.update_position
  dsimp only
  split_ifs <;> rfl

lemma updateIter_x_irrelevant (t : FallingTile) (xv : Int)
    (p : PianoState) (times : Nat → Int) (n : Nat) :
    updateIter { t with x := xv } p times n =
      ({ (updateIter t p times n).1 with x := xv },
       (updateIter t p times n).2) := by
  induction n with
  | zero => rfl
  | succ n ih =>
    simp only [updateIter]
    rw [ih, update_position_x_irrelevant]

lemma mkFallingTile_x_update (note_name : String) (key_rect : Rect)
    (fall_speed : Int) (o o' : Int) :
    mkFallingTile note_name key_rect fall_speed o =
      { mkFallingTile note_name key_rect fall_speed o' with
        x := (mkFallingTile note_name key_rect fall_speed o).x } := rfl

/-- C8: spawning a tile for a note appends a tile whose horizontal offset
is the fixed 20 px increment times the number of currently-unfinished
tiles already targeting that note; the offset changes only the tile's
horizontal position (the spawned tile equals the zero-offset tile with its
`x` field replaced, and two offsets differ in `x` by exactly their
difference); and over any number of frames, any piano state and any frame
timestamps, tiles spawned with different offsets have identical vertical
positions and identical finished flags — the collision frame does not
depend on the offset, since the collision test uses only the vertical
position and the key's top edge. -/
theorem spawn_offset_deconfliction (tiles : List FallingTile)
    (keys_info : List (String × Rect)) (note_name : String)
    (fall_speed : Int) (key_rect : Rect)
    (hk : findKeyRect keys_info note_name = some key_rect) :
    spawnTile tiles keys_info note_name fall_speed =
      tiles ++ [mkFallingTile note_name key_rect fall_speed
        ((activeTileCount tiles note_name : Int) * 20)] ∧
      (∀ o₁ o₂ : Int,
        mkFallingTile note_name key_rect fall_speed o₁ =
          { mkFallingTile note_name key_rect fall_speed o₂ with
            x := (mkFallingTile note_name key_rect fall_speed o₁).x } ∧
        (mkFallingTile note_name key_rect fall_speed o₁).x -
            (mkFallingTile note_name key_rect fall_speed o₂).x = o₁ - o₂ ∧
        ∀ (p : PianoState) (times : Nat → Int) (n : Nat),
          (updateIter (mkFallingTile note_name key_rect fall_speed o₁) p
              times n).1.y =
            (updateIter (mkFallingTile note_name key_rect fall_speed o₂) p
              times n).1.y ∧
          (updateIter (mkFallingTile note_name key_rect fall_speed o₁) p
              times n).1.is_finished =
            (updateIter (mkFallingTile note_name key_rect fall_speed o₂) p
              times n).1.is_finished) := by
  constructor
  · unfold spawnTile
    rw [hk]
  · intro o₁ o₂
    refine ⟨mkFallingTile_x_update note_name key_rect fall_speed o₁ o₂,
      ?_, ?_⟩
    · simp only [mkFallingTile]
      ring
    · intro p times n
      rw [mkFallingTile_x_update note_name key_rect fall_speed o₁ o₂,
        updateIter_x_irrelevant]
      exact ⟨rfl, rfl⟩

/-- Witness for C8: with one unfinished "c4" tile already active, a new
"c4" spawn is appended with offset 20; and tiles spawned with offsets 0
and 20 have equal finished flags after 5 frames. -/
theorem spawn_offset_deconfliction_witness :
    findKeyRect [("c4", ⟨0, 100, 50, 60⟩)] "c4" = some ⟨0, 100, 50, 60⟩ ∧
      spawnTile [mkFallingTile "c4" ⟨0, 100, 50, 60⟩ 4 0]
          [("c4", ⟨0, 100, 50, 60⟩)] "c4" 4 =
        [mkFallingTile "c4" ⟨0, 100, 50, 60⟩ 4 0] ++
          [mkFallingTile "c4" ⟨0, 100, 50, 60⟩ 4
            ((activeTileCount [mkFallingTile "c4" ⟨0, 100, 50, 60⟩ 4 0]
              "c4" : Int) * 20)] ∧
      (updateIter (mkFallingTile "c4" ⟨0, 100, 50, 60⟩ 4 0) ⟨true, 0, []⟩
          (fun _ => 0) 5).1.is_finished =
        (updateIter (mkFallingTile "c4" ⟨0, 100, 50, 60⟩ 4 20) ⟨true, 0, []⟩
          (fun _ => 0) 5).1.is_finished :=
  ⟨by decide,
    (spawn_offset_deconfliction [mkFallingTile "c4" ⟨0, 100, 50, 60⟩ 4 0]
      [("c4", ⟨0, 100, 50, 60⟩)] "c4" 4 ⟨0, 100, 50, 60⟩ (by decide)).1,
    (((spawn_offset_deconfliction [mkFallingTile "c4" ⟨0, 100, 50, 60⟩ 4 0]
      [("c4", ⟨0, 100, 50, 60⟩)] "c4" 4 ⟨0, 100, 50, 60⟩ (by decide)).2 0
      20).2.2 ⟨true, 0, []⟩ (fun _ => 0) 5).2⟩

/-! ### Scheduler lemmas -/

lemma scheduleMelodyAux_map_fst (acc : Int) (m : List (String × Int)) :
    (scheduleMelodyAux acc m).map Prod.fst = m.map Prod.fst := by
  induction m generalizing acc with
  | nil => rfl
  | cons hd rest ih =>
    rcases hd with ⟨nm, d⟩
    simp [scheduleMelodyAux, ih]

lemma scheduleMelodyAux_head (acc : Int) (m : List (String × Int))
    (p : String × Int) (hp : m.get? 0 = some p) :
    (scheduleMelodyAux acc m).get? 0 = some (p.1, acc + p.2) := by
  cases m with
  | nil => simp at hp
  | cons hd rest =>
    rcases hd with ⟨nm, d⟩
    simp only [List.get?_cons_zero, Option.some.injEq] at hp
    rw [← hp]
    simp [scheduleMelodyAux]

lemma scheduleMelodyAux_get?_succ (m : List (String × Int)) (acc : Int)
    (i : Nat) (q p : String × Int)
    (hq : (scheduleMelodyAux acc m).get? i = some q)
    (hp : m.get? (i + 1) = some p) :
    (scheduleMelodyAux acc m).get? (i + 1) = some (p.1, q.2 + p.2) := by
  induction m generalizing acc i with
  | nil => simp at hp
  | cons hd rest ih =>
    rcases hd with ⟨nm, d⟩
    cases i with
    | zero =>
      simp only [scheduleMelodyAux, List.get?_cons_zero,
        Option.some.injEq] at hq
      simp only [List.get?_cons_succ] at hp
      have := scheduleMelodyAux_head (acc + d) rest p hp
      simp only [scheduleMelodyAux, List.get?_cons_succ]
      rw [this, ← hq]
    | succ j =>
      simp only [scheduleMelodyAux, List.get?_cons_succ] at hq hp ⊢
      exact ih (acc + d) j hq hp

/-- C7: the scheduling loop gives each melody entry a cumulative onset
time relative to scheduling start: the notes are kept in order, the first
entry's onset equals its own delay (`onset[0] = delay[0]`), each later
entry's onset is the previous entry's onset plus its own delay
(`onset[i+1] = onset[i] + delay[i+1]`), and for the melody
`[("c4", 0), ("d4", 500)]` scheduled at wall-clock time `T` the spawns
fire at `T` and `T + 500` — times, not frame counts, so the schedule is
independent of frame rate. -/
theorem scheduler_cumulative_onsets (melody : List (String × Int))
    (i : Nat) :
    (scheduleTileSpawns melody).map Prod.fst = melody.map Prod.fst ∧
      (∀ p : String × Int, melody.get? 0 = some p →
        (scheduleTileSpawns melody).get? 0 = some p) ∧
      (∀ q p : String × Int,
        (scheduleTileSpawns melody).get? i = some q →
        melody.get? (i + 1) = some p →
        (scheduleTileSpawns melody).get? (i + 1) = some (p.1, q.2 + p.2)) ∧
      (∀ T : Int, spawnTimesAt T [("c4", 0), ("d4", 500)] =
        [("c4", T), ("d4", T + 500)]) := by
  refine ⟨scheduleMelodyAux_map_fst 0 melody, ?_, ?_, ?_⟩
  · intro p hp
    have := scheduleMelodyAux_head 0 melody p hp
    simpa using this
  · intro q p hq hp
    exact scheduleMelodyAux_get?_succ melody 0 i q p hq hp
  · intro T
    simp [spawnTimesAt, scheduleTileSpawns, scheduleMelodyAux]

/-- Witness for C7 on the spec's example melody: onsets are 0 and
0 + 500, and scheduling at T = 2000 fires at 2000 and 2000 + 500. -/
theorem scheduler_cumulative_onsets_witness :
    ([("c4", (0 : Int)), ("d4", 500)].get? 0 = some ("c4", 0)) ∧
      ((scheduleTileSpawns [("c4", (0 : Int)), ("d4", 500)]).get? 0 =
        some ("c4", 0)) ∧
      ([("c4", (0 : Int)), ("d4", 500)].get? 1 = some ("d4", 500)) ∧
      ((scheduleTileSpawns [("c4", (0 : Int)), ("d4", 500)]).get? 1 =
        some ("d4", 0 + 500)) ∧
      spawnTimesAt 2000 [("c4", 0), ("d4", 500)] =
        [("c4", 2000), ("d4", 2000 + 500)] :=
  ⟨by decide,
    (scheduler_cumulative_onsets [("c4", (0 : Int)), ("d4", 500)] 0).2.1
      ("c4", 0) (by decide),
    by decide,
    (scheduler_cumulative_onsets [("c4", (0 : Int)), ("d4", 500)] 0).2.2.1
      ("c4", 0) ("d4", 500) (by decide) (by decide),
    (scheduler_cumulative_onsets [("c4", (0 : Int)), ("d4", 500)] 0).2.2.2
      2000⟩

end ARPiano
